import Mathlib

/-!
Verification of the Rubik's cube model and solver of this repository.

The cube state (`cube.py`, class `RubiksCube`) keeps one 3x3 grid of color
indices per face, faces ordered U, D, F, B, L, R and colors 0=White, 1=Yellow,
2=Red, 3=Orange, 4=Blue, 5=Green.  Each face grid is embedded as a structure
with nine `Nat` fields `aRC` (row `R`, column `C`); the moves of the engine are
embedded as pure functions on the state, copying the in-place numpy updates of
the source (each source assignment reads only cells not yet overwritten in the
same move, so the simultaneous reading below is exact).
-/

/-- One 3x3 face grid; field `aRC` is the cell at row R, column C. -/
structure Face3 where
  a00 : Nat
  a01 : Nat
  a02 : Nat
  a10 : Nat
  a11 : Nat
  a12 : Nat
  a20 : Nat
  a21 : Nat
  a22 : Nat
deriving DecidableEq, Repr

/-- The whole cube: six faces in the source order U, D, F, B, L, R. -/
structure CubeState where
  U : Face3
  D : Face3
  F : Face3
  B : Face3
  L : Face3
  R : Face3
deriving DecidableEq, Repr

/-- A face filled with one color, as `np.full((3,3), i)` does. -/
def fullFace (i : Nat) : Face3 := ⟨i, i, i, i, i, i, i, i, i⟩

/-- `RubiksCube.__init__`: the solved cube, face number `i` filled with `i`. -/
def solvedCube : CubeState :=
  ⟨fullFace 0, fullFace 1, fullFace 2, fullFace 3, fullFace 4, fullFace 5⟩

/-- `RubiksCube.copy`: a fresh cube whose every face is a copy of the original. -/
def copyCube (s : CubeState) : CubeState := ⟨s.U, s.D, s.F, s.B, s.L, s.R⟩

/-- `np.rot90(m, -1)`: rotate a face grid 90 degrees clockwise. -/
def rotCW (f : Face3) : Face3 :=
  ⟨f.a20, f.a10, f.a00, f.a21, f.a11, f.a01, f.a22, f.a12, f.a02⟩

/-- `np.rot90(m, 1)`: rotate a face grid 90 degrees counter-clockwise. -/
def rotCCW (f : Face3) : Face3 :=
  ⟨f.a02, f.a12, f.a22, f.a01, f.a11, f.a21, f.a00, f.a10, f.a20⟩

/-- Replace row 0 of a face. -/
def withRow0 (f : Face3) (x y z : Nat) : Face3 :=
  ⟨x, y, z, f.a10, f.a11, f.a12, f.a20, f.a21, f.a22⟩

/-- Replace row 2 of a face. -/
def withRow2 (f : Face3) (x y z : Nat) : Face3 :=
  ⟨f.a00, f.a01, f.a02, f.a10, f.a11, f.a12, x, y, z⟩

/-- Replace column 0 of a face (rows 0, 1, 2). -/
def withCol0 (f : Face3) (x y z : Nat) : Face3 :=
  ⟨x, f.a01, f.a02, y, f.a11, f.a12, z, f.a21, f.a22⟩

/-- Replace column 2 of a face (rows 0, 1, 2). -/
def withCol2 (f : Face3) (x y z : Nat) : Face3 :=
  ⟨f.a00, f.a01, x, f.a10, f.a11, y, f.a20, f.a21, z⟩

/-- `move_U`: rotate U clockwise; F row0 gets R row0, R gets B, B gets L,
L gets the old F row0. -/
def move_U (s : CubeState) : CubeState :=
  { U := rotCW s.U, D := s.D
    F := withRow0 s.F s.R.a00 s.R.a01 s.R.a02
    R := withRow0 s.R s.B.a00 s.B.a01 s.B.a02
    B := withRow0 s.B s.L.a00 s.L.a01 s.L.a02
    L := withRow0 s.L s.F.a00 s.F.a01 s.F.a02 }

/-- `move_U_prime`: rotate U counter-clockwise; row-0 cycle reversed. -/
def move_U_prime (s : CubeState) : CubeState :=
  { U := rotCCW s.U, D := s.D
    F := withRow0 s.F s.L.a00 s.L.a01 s.L.a02
    L := withRow0 s.L s.B.a00 s.B.a01 s.B.a02
    B := withRow0 s.B s.R.a00 s.R.a01 s.R.a02
    R := withRow0 s.R s.F.a00 s.F.a01 s.F.a02 }

/-- `move_D`: rotate D clockwise; F row2 gets L row2, L gets B, B gets R,
R gets the old F row2. -/
def move_D (s : CubeState) : CubeState :=
  { D := rotCW s.D, U := s.U
    F := withRow2 s.F s.L.a20 s.L.a21 s.L.a22
    L := withRow2 s.L s.B.a20 s.B.a21 s.B.a22
    B := withRow2 s.B s.R.a20 s.R.a21 s.R.a22
    R := withRow2 s.R s.F.a20 s.F.a21 s.F.a22 }

/-- `move_D_prime`: rotate D counter-clockwise; row-2 cycle reversed. -/
def move_D_prime (s : CubeState) : CubeState :=
  { D := rotCCW s.D, U := s.U
    F := withRow2 s.F s.R.a20 s.R.a21 s.R.a22
    R := withRow2 s.R s.B.a20 s.B.a21 s.B.a22
    B := withRow2 s.B s.L.a20 s.L.a21 s.L.a22
    L := withRow2 s.L s.F.a20 s.F.a21 s.F.a22 }

/-- `move_R`: rotate R clockwise; U col2 gets F col2, F col2 gets D col2,
D col2 row i gets B col0 row 2-i, B col0 row i gets the old U col2 row 2-i. -/
def move_R (s : CubeState) : CubeState :=
  { R := rotCW s.R, L := s.L
    U := withCol2 s.U s.F.a02 s.F.a12 s.F.a22
    F := withCol2 s.F s.D.a02 s.D.a12 s.D.a22
    D := withCol2 s.D s.B.a20 s.B.a10 s.B.a00
    B := withCol0 s.B s.U.a22 s.U.a12 s.U.a02 }

/-- `move_R_prime`: rotate R counter-clockwise; side cycle reversed. -/
def move_R_prime (s : CubeState) : CubeState :=
  { R := rotCCW s.R, L := s.L
    U := withCol2 s.U s.B.a20 s.B.a10 s.B.a00
    B := withCol0 s.B s.D.a22 s.D.a12 s.D.a02
    D := withCol2 s.D s.F.a02 s.F.a12 s.F.a22
    F := withCol2 s.F s.U.a02 s.U.a12 s.U.a22 }

/-- `move_L`: rotate L clockwise; U col0 row i gets B col2 row 2-i, B col2
row i gets D col0 row 2-i, D col0 gets F col0, F col0 gets old U col0. -/
def move_L (s : CubeState) : CubeState :=
  { L := rotCW s.L, R := s.R
    U := withCol0 s.U s.B.a22 s.B.a12 s.B.a02
    B := withCol2 s.B s.D.a20 s.D.a10 s.D.a00
    D := withCol0 s.D s.F.a00 s.F.a10 s.F.a20
    F := withCol0 s.F s.U.a00 s.U.a10 s.U.a20 }

/-- `move_L_prime`: rotate L counter-clockwise; side cycle reversed. -/
def move_L_prime (s : CubeState) : CubeState :=
  { L := rotCCW s.L, R := s.R
    U := withCol0 s.U s.F.a00 s.F.a10 s.F.a20
    F := withCol0 s.F s.D.a00 s.D.a10 s.D.a20
    D := withCol0 s.D s.B.a22 s.B.a12 s.B.a02
    B := withCol2 s.B s.U.a20 s.U.a10 s.U.a00 }

/-- `move_F`: rotate F clockwise; U row2 cell i gets L col2 row 2-i, L col2
row i gets D row0 cell i, D row0 cell i gets R col0 row 2-i, R col0 row i
gets the old U row2 cell i. -/
def move_F (s : CubeState) : CubeState :=
  { F := rotCW s.F, B := s.B
    U := withRow2 s.U s.L.a22 s.L.a12 s.L.a02
    L := withCol2 s.L s.D.a00 s.D.a01 s.D.a02
    D := withRow0 s.D s.R.a20 s.R.a10 s.R.a00
    R := withCol0 s.R s.U.a20 s.U.a21 s.U.a22 }

/-- `move_F_prime`: rotate F counter-clockwise; side cycle reversed. -/
def move_F_prime (s : CubeState) : CubeState :=
  { F := rotCCW s.F, B := s.B
    U := withRow2 s.U s.R.a00 s.R.a10 s.R.a20
    R := withCol0 s.R s.D.a02 s.D.a01 s.D.a00
    D := withRow0 s.D s.L.a02 s.L.a12 s.L.a22
    L := withCol2 s.L s.U.a22 s.U.a21 s.U.a20 }

/-- `move_B`: rotate B clockwise; U row0 cell i gets R col2 row i, R col2
row i gets D row2 cell 2-i, D row2 cell i gets L col0 row i, L col0 row i
gets the old U row0 cell 2-i. -/
def move_B (s : CubeState) : CubeState :=
  { B := rotCW s.B, F := s.F
    U := withRow0 s.U s.R.a02 s.R.a12 s.R.a22
    R := withCol2 s.R s.D.a22 s.D.a21 s.D.a20
    D := withRow2 s.D s.L.a00 s.L.a10 s.L.a20
    L := withCol0 s.L s.U.a02 s.U.a01 s.U.a00 }

/-- `move_B_prime`: rotate B counter-clockwise; side cycle reversed. -/
def move_B_prime (s : CubeState) : CubeState :=
  { B := rotCCW s.B, F := s.F
    U := withRow0 s.U s.L.a20 s.L.a10 s.L.a00
    L := withCol0 s.L s.D.a20 s.D.a21 s.D.a22
    D := withRow2 s.D s.R.a22 s.R.a12 s.R.a02
    R := withCol2 s.R s.U.a00 s.U.a01 s.U.a02 }

/-- `np.all(faces[face] == i)` for one face. -/
def faceAll (f : Face3) (i : Nat) : Bool :=
  (f.a00 == i) && (f.a01 == i) && (f.a02 == i) &&
  (f.a10 == i) && (f.a11 == i) && (f.a12 == i) &&
  (f.a20 == i) && (f.a21 == i) && (f.a22 == i)

/-- `RubiksCube.is_solved`: every face's cells equal that face's index. -/
def is_solved (s : CubeState) : Bool :=
  faceAll s.U 0 && faceAll s.D 1 && faceAll s.F 2 &&
  faceAll s.B 3 && faceAll s.L 4 && faceAll s.R 5

/-!
Move tokens.  `apply_move` in the source receives a Python string, strips the
surrounding whitespace (`move.strip()`), and matches it against the 18 legal
tokens; anything else raises `ValueError(f"Invalid move: {move}")`.  Strings
are embedded as lists of characters; the apostrophe character of the primed
tokens is written by its code point.
-/

/-- The apostrophe character used by primed move tokens. -/
def primeC : Char := Char.ofNat 39

/-- The space character. -/
def spaceC : Char := Char.ofNat 32

/-- Characters removed by Python `str.strip()` / split by `str.split()`. -/
def isPySpace (c : Char) : Bool :=
  c == spaceC || c == Char.ofNat 9 || c == Char.ofNat 10 ||
  c == Char.ofNat 13 || c == Char.ofNat 11 || c == Char.ofNat 12

/-- Python `str.strip()`: drop leading and trailing whitespace. -/
def pyStrip (l : List Char) : List Char :=
  ((l.dropWhile isPySpace).reverse.dropWhile isPySpace).reverse

/-- Helper for Python `str.split()`: accumulate the current word. -/
def pySplitAux : List Char → List Char → List (List Char)
  | [], acc => if acc.isEmpty then [] else [acc.reverse]
  | c :: cs, acc =>
    if isPySpace c then
      if acc.isEmpty then pySplitAux cs [] else acc.reverse :: pySplitAux cs []
    else
      pySplitAux cs (c :: acc)

/-- Python `str.split()` with no separator: split on whitespace runs. -/
def pySplit (l : List Char) : List (List Char) := pySplitAux l []

def tokU : List Char := ['U']
def tokUp : List Char := ['U', primeC]
def tokU2 : List Char := ['U', '2']
def tokD : List Char := ['D']
def tokDp : List Char := ['D', primeC]
def tokD2 : List Char := ['D', '2']
def tokR : List Char := ['R']
def tokRp : List Char := ['R', primeC]
def tokR2 : List Char := ['R', '2']
def tokL : List Char := ['L']
def tokLp : List Char := ['L', primeC]
def tokL2 : List Char := ['L', '2']
def tokF : List Char := ['F']
def tokFp : List Char := ['F', primeC]
def tokF2 : List Char := ['F', '2']
def tokB : List Char := ['B']
def tokBp : List Char := ['B', primeC]
def tokB2 : List Char := ['B', '2']

/-- The 18 legal move tokens, listed in the order `apply_move` tests them. -/
def tokens18 : List (List Char) :=
  [tokU, tokUp, tokD, tokDp, tokR, tokRp, tokL, tokLp, tokF, tokFp,
   tokB, tokBp, tokU2, tokD2, tokR2, tokL2, tokF2, tokB2]

/-- Message prefix of the ValueError raised for an invalid move. -/
def invalidMoveMsg : List Char := ("Invalid move: ").data

/-- The if/elif chain of `apply_move` on the already-stripped token. -/
def applyStripped (s : CubeState) (m : List Char) : Except (List Char) CubeState :=
  if m = tokU then .ok (move_U s)
  else if m = tokUp then .ok (move_U_prime s)
  else if m = tokD then .ok (move_D s)
  else if m = tokDp then .ok (move_D_prime s)
  else if m = tokR then .ok (move_R s)
  else if m = tokRp then .ok (move_R_prime s)
  else if m = tokL then .ok (move_L s)
  else if m = tokLp then .ok (move_L_prime s)
  else if m = tokF then .ok (move_F s)
  else if m = tokFp then .ok (move_F_prime s)
  else if m = tokB then .ok (move_B s)
  else if m = tokBp then .ok (move_B_prime s)
  else if m = tokU2 then .ok (move_U (move_U s))
  else if m = tokD2 then .ok (move_D (move_D s))
  else if m = tokR2 then .ok (move_R (move_R s))
  else if m = tokL2 then .ok (move_L (move_L s))
  else if m = tokF2 then .ok (move_F (move_F s))
  else if m = tokB2 then .ok (move_B (move_B s))
  else .error (invalidMoveMsg ++ m)

/-- `RubiksCube.apply_move`: strip the token, then dispatch; the raised
`ValueError` is embedded as the `error` value. -/
def apply_move (s : CubeState) (mv : List Char) : Except (List Char) CubeState :=
  applyStripped s (pyStrip mv)

/-- The per-token loop of `apply_moves`: apply tokens left to right; an
invalid token aborts the loop, keeping the state reached so far and
reporting the error message. -/
def goMoves (s : CubeState) : List (List Char) → CubeState × Option (List Char)
  | [] => (s, none)
  | t :: ts =>
    match apply_move s t with
    | .ok s2 => goMoves s2 ts
    | .error e => (s, some e)

/-- `RubiksCube.apply_moves`: empty (after strip) input is a no-op, otherwise
split on whitespace and apply each token in turn. -/
def apply_moves (s : CubeState) (moves : List Char) : CubeState × Option (List Char) :=
  if (pyStrip moves).isEmpty then (s, none)
  else goMoves s (pySplit (pyStrip moves))

/-- State after applying a token list, ignoring errors (used by the solver on
its own constant, always-valid algorithm strings). -/
def applySeq (s : CubeState) (ts : List (List Char)) : CubeState :=
  (goMoves s ts).1

/-!
Reachability and the syntactic inverse of a token.
-/

/-- States reachable from the solved cube by legal moves of the engine. -/
inductive ReachableCube : CubeState → Prop
  | solved : ReachableCube solvedCube
  | step {s s2 : CubeState} {t : List Char} : ReachableCube s → t ∈ tokens18 →
      apply_move s t = .ok s2 → ReachableCube s2

/-- The syntactic inverse of a move token: X becomes X-prime, X-prime
becomes X, X2 stays X2; other strings are returned unchanged. -/
def synInv (t : List Char) : List Char :=
  if t = tokU then tokUp else if t = tokUp then tokU
  else if t = tokD then tokDp else if t = tokDp then tokD
  else if t = tokR then tokRp else if t = tokRp then tokR
  else if t = tokL then tokLp else if t = tokLp then tokL
  else if t = tokF then tokFp else if t = tokFp then tokF
  else if t = tokB then tokBp else if t = tokBp then tokB
  else t

/-- Equal `ok` results carry equal states. -/
theorem ok_inj {a b : CubeState}
    (h : (Except.ok a : Except (List Char) CubeState) = .ok b) : a = b := by
  cases h; rfl

/-- C1: applying any of the 18 legal move tokens and then its syntactic
inverse returns every reachable cube state to exactly its previous value. -/
theorem claim1_inverse_property :
    ∀ t ∈ tokens18, ∀ s : CubeState, ReachableCube s →
      ∃ s1 s2, apply_move s t = .ok s1 ∧ apply_move s1 (synInv t) = .ok s2 ∧
        s2 = s := by
  intro t ht s _
  fin_cases ht <;> exact ⟨_, _, rfl, rfl, rfl⟩

/-- C1 witness: the U token and its inverse round-trip the solved cube. -/
theorem claim1_witness :
    ∃ s1 s2, apply_move solvedCube tokU = .ok s1 ∧
      apply_move s1 (synInv tokU) = .ok s2 ∧ s2 = solvedCube :=
  claim1_inverse_property tokU (by decide) solvedCube ReachableCube.solved

/-!
Centers (claim C3).
-/

/-- The six center cells, in face order U, D, F, B, L, R. -/
def centers (s : CubeState) : Nat × Nat × Nat × Nat × Nat × Nat :=
  (s.U.a11, s.D.a11, s.F.a11, s.B.a11, s.L.a11, s.R.a11)

/-- Every legal token leaves all six centers unchanged. -/
theorem centers_preserved :
    ∀ t ∈ tokens18, ∀ s s2 : CubeState, apply_move s t = .ok s2 →
      centers s2 = centers s := by
  intro t ht s s2 h
  fin_cases ht <;> (have h2 := ok_inj h; subst h2; rfl)

/-- Every reachable state has the home color at each center. -/
theorem reachable_centers :
    ∀ s : CubeState, ReachableCube s → centers s = (0, 1, 2, 3, 4, 5) := by
  intro s hs
  induction hs with
  | solved => rfl
  | step hr ht happ ih => rw [centers_preserved _ ht _ _ happ]; exact ih

/-- C3: every legal move token leaves the center cell of all six faces
unchanged, and consequently every reachable state carries each face's home
color at its center. -/
theorem claim3_centers_fixed :
    (∀ t ∈ tokens18, ∀ s s2 : CubeState, apply_move s t = .ok s2 →
      centers s2 = centers s) ∧
    (∀ s : CubeState, ReachableCube s → centers s = (0, 1, 2, 3, 4, 5)) :=
  ⟨centers_preserved, reachable_centers⟩

/-- C3 witness: a concrete U move keeps the centers, and the solved cube has
home-colored centers. -/
theorem claim3_witness :
    centers (move_U solvedCube) = centers solvedCube ∧
    centers solvedCube = (0, 1, 2, 3, 4, 5) :=
  ⟨claim3_centers_fixed.1 tokU (by decide) solvedCube (move_U solvedCube) rfl,
   claim3_centers_fixed.2 solvedCube ReachableCube.solved⟩

/-!
The U move's strip cycle (claim C7).
-/

/-- Row 0 (the top strip) of a face. -/
def row0 (f : Face3) : Nat × Nat × Nat := (f.a00, f.a01, f.a02)

/-- Rows 1 and 2 of a face, the part a U move must not touch. -/
def rowsBelow (f : Face3) : Nat × Nat × Nat × Nat × Nat × Nat :=
  (f.a10, f.a11, f.a12, f.a20, f.a21, f.a22)

/-- C7 counterexample: after a U move on the solved cube, the top strip of R
holds B's home color 3, not F's home color 2; so F's top strip did not move
to R as the claim's cycle direction requires. -/
theorem claim7_counterexample :
    row0 (move_U solvedCube).R = (3, 3, 3) ∧ row0 solvedCube.F = (2, 2, 2) ∧
    ¬ row0 (move_U solvedCube).R = row0 solvedCube.F := by
  decide

/-- C7 (amended): a clockwise U move rotates U's own grid 90 degrees
clockwise in place and cycles the top strips as F to L, L to B, B to R and
R to F (the cycle F-L-B-R read clockwise as seen from the turning face),
leaving D and the lower two rows of the four side faces unchanged. -/
theorem claim7_u_move_semantics :
    ∀ s : CubeState,
      (move_U s).U = rotCW s.U ∧ (move_U s).D = s.D ∧
      row0 (move_U s).L = row0 s.F ∧ row0 (move_U s).B = row0 s.L ∧
      row0 (move_U s).R = row0 s.B ∧ row0 (move_U s).F = row0 s.R ∧
      rowsBelow (move_U s).F = rowsBelow s.F ∧
      rowsBelow (move_U s).R = rowsBelow s.R ∧
      rowsBelow (move_U s).B = rowsBelow s.B ∧
      rowsBelow (move_U s).L = rowsBelow s.L :=
  fun _ => ⟨rfl, rfl, rfl, rfl, rfl, rfl, rfl, rfl, rfl, rfl⟩

/-!
The solved check (claim C9).
-/

/-- One face entirely in its home color, stated cell by cell. -/
def faceHomeProp (f : Face3) (i : Nat) : Prop :=
  f.a00 = i ∧ f.a01 = i ∧ f.a02 = i ∧ f.a10 = i ∧ f.a11 = i ∧ f.a12 = i ∧
  f.a20 = i ∧ f.a21 = i ∧ f.a22 = i

/-- The spec's wording of the solved state: every face's 9 cells equal that
face's home color. -/
def solvedSpecProp (s : CubeState) : Prop :=
  faceHomeProp s.U 0 ∧ faceHomeProp s.D 1 ∧ faceHomeProp s.F 2 ∧
  faceHomeProp s.B 3 ∧ faceHomeProp s.L 4 ∧ faceHomeProp s.R 5

/-- C9: a freshly constructed cube is solved; each of the 18 tokens unsolves
the solved cube; and the solved check holds exactly when every face's cells
equal that face's home color. -/
theorem claim9_solved_check :
    is_solved solvedCube = true ∧
    (∀ t ∈ tokens18, ∃ s2, apply_move solvedCube t = .ok s2 ∧
      is_solved s2 = false) ∧
    (∀ s : CubeState, is_solved s = true ↔ solvedSpecProp s) := by
  refine ⟨rfl, ?_, ?_⟩
  · intro t ht
    fin_cases ht <;> exact ⟨_, rfl, by decide⟩
  · intro s
    simp only [is_solved, faceAll, solvedSpecProp, faceHomeProp,
      Bool.and_eq_true, beq_iff_eq]
    tauto

/-- C9 witness: the F token applied to the solved cube yields an unsolved
state. -/
theorem claim9_witness :
    ∃ s2, apply_move solvedCube tokF = .ok s2 ∧ is_solved s2 = false :=
  claim9_solved_check.2.1 tokF (by decide)


/-!
Color counting (claim C2) and cell validity (claim C4).
-/

/-- Indicator: 1 when a cell holds color c. -/
def oneIf (c x : Nat) : Nat := if x = c then 1 else 0

/-- Number of cells of one face holding color c. -/
def cntFace (c : Nat) (f : Face3) : Nat :=
  oneIf c f.a00 + oneIf c f.a01 + oneIf c f.a02 +
  oneIf c f.a10 + oneIf c f.a11 + oneIf c f.a12 +
  oneIf c f.a20 + oneIf c f.a21 + oneIf c f.a22

/-- Number of facelets of the whole cube holding color c. -/
def countColor (c : Nat) (s : CubeState) : Nat :=
  cntFace c s.U + cntFace c s.D + cntFace c s.F +
  cntFace c s.B + cntFace c s.L + cntFace c s.R

/-- All nine cells of a face hold a color index below 6. -/
def faceValid (f : Face3) : Prop :=
  f.a00 < 6 ∧ f.a01 < 6 ∧ f.a02 < 6 ∧ f.a10 < 6 ∧ f.a11 < 6 ∧ f.a12 < 6 ∧
  f.a20 < 6 ∧ f.a21 < 6 ∧ f.a22 < 6

/-- All 54 cells of the cube hold color indices below 6. -/
def CellsValid (s : CubeState) : Prop :=
  faceValid s.U ∧ faceValid s.D ∧ faceValid s.F ∧
  faceValid s.B ∧ faceValid s.L ∧ faceValid s.R

/-- A token outside the 18-token grammar takes the final else branch. -/
theorem applyStripped_not_mem (s : CubeState) (m : List Char)
    (hm : m ∉ tokens18) : applyStripped s m = .error (invalidMoveMsg ++ m) := by
  rw [tokens18] at hm
  simp only [List.mem_cons, List.not_mem_nil, or_false] at hm
  push_neg at hm
  obtain ⟨h1, h2, h3, h4, h5, h6, h7, h8, h9, h10, h11, h12, h13, h14, h15,
    h16, h17, h18⟩ := hm
  simp only [applyStripped, if_neg h1, if_neg h2, if_neg h3, if_neg h4,
    if_neg h5, if_neg h6, if_neg h7, if_neg h8, if_neg h9, if_neg h10,
    if_neg h11, if_neg h12, if_neg h13, if_neg h14, if_neg h15, if_neg h16,
    if_neg h17, if_neg h18]

/-- A successful `apply_move` means the stripped token was legal. -/
theorem mem_of_ok (t : List Char) (s s2 : CubeState)
    (h : apply_move s t = .ok s2) : pyStrip t ∈ tokens18 := by
  by_contra hm
  unfold apply_move at h
  rw [applyStripped_not_mem s _ hm] at h
  exact absurd h (by simp)

/-- `move_U` permutes facelets, so it preserves every color count. -/
theorem count_move_U (c : Nat) (s : CubeState) :
    countColor c (move_U s) = countColor c s := by
  simp only [countColor, cntFace, oneIf, move_U, rotCW, withRow0]
  ring

/-- `move_U_prime` permutes facelets, so it preserves every color count. -/
theorem count_move_U_prime (c : Nat) (s : CubeState) :
    countColor c (move_U_prime s) = countColor c s := by
  simp only [countColor, cntFace, oneIf, move_U_prime, rotCCW, withRow0]
  ring

/-- `move_D` permutes facelets, so it preserves every color count. -/
theorem count_move_D (c : Nat) (s : CubeState) :
    countColor c (move_D s) = countColor c s := by
  simp only [countColor, cntFace, oneIf, move_D, rotCW, withRow2]
  ring

/-- `move_D_prime` permutes facelets, so it preserves every color count. -/
theorem count_move_D_prime (c : Nat) (s : CubeState) :
    countColor c (move_D_prime s) = countColor c s := by
  simp only [countColor, cntFace, oneIf, move_D_prime, rotCCW, withRow2]
  ring

/-- `move_R` permutes facelets, so it preserves every color count. -/
theorem count_move_R (c : Nat) (s : CubeState) :
    countColor c (move_R s) = countColor c s := by
  simp only [countColor, cntFace, oneIf, move_R, rotCW, withCol0, withCol2]
  ring

/-- `move_R_prime` permutes facelets, so it preserves every color count. -/
theorem count_move_R_prime (c : Nat) (s : CubeState) :
    countColor c (move_R_prime s) = countColor c s := by
  simp only [countColor, cntFace, oneIf, move_R_prime, rotCCW, withCol0, withCol2]
  ring

/-- `move_L` permutes facelets, so it preserves every color count. -/
theorem count_move_L (c : Nat) (s : CubeState) :
    countColor c (move_L s) = countColor c s := by
  simp only [countColor, cntFace, oneIf, move_L, rotCW, withCol0, withCol2]
  ring

/-- `move_L_prime` permutes facelets, so it preserves every color count. -/
theorem count_move_L_prime (c : Nat) (s : CubeState) :
    countColor c (move_L_prime s) = countColor c s := by
  simp only [countColor, cntFace, oneIf, move_L_prime, rotCCW, withCol0, withCol2]
  ring

/-- `move_F` permutes facelets, so it preserves every color count. -/
theorem count_move_F (c : Nat) (s : CubeState) :
    countColor c (move_F s) = countColor c s := by
  simp only [countColor, cntFace, oneIf, move_F, rotCW, withRow0, withRow2, withCol0, withCol2]
  ring

/-- `move_F_prime` permutes facelets, so it preserves every color count. -/
theorem count_move_F_prime (c : Nat) (s : CubeState) :
    countColor c (move_F_prime s) = countColor c s := by
  simp only [countColor, cntFace, oneIf, move_F_prime, rotCCW, withRow0, withRow2, withCol0, withCol2]
  ring

/-- `move_B` permutes facelets, so it preserves every color count. -/
theorem count_move_B (c : Nat) (s : CubeState) :
    countColor c (move_B s) = countColor c s := by
  simp only [countColor, cntFace, oneIf, move_B, rotCW, withRow0, withRow2, withCol0, withCol2]
  ring

/-- `move_B_prime` permutes facelets, so it preserves every color count. -/
theorem count_move_B_prime (c : Nat) (s : CubeState) :
    countColor c (move_B_prime s) = countColor c s := by
  simp only [countColor, cntFace, oneIf, move_B_prime, rotCCW, withRow0, withRow2, withCol0, withCol2]
  ring

/-- `move_U` keeps every cell below 6. -/
theorem valid_move_U (s : CubeState) (hv : CellsValid s) :
    CellsValid (move_U s) := by
  simp only [CellsValid, faceValid, move_U, rotCW, withRow0] at hv ⊢
  omega

/-- `move_U_prime` keeps every cell below 6. -/
theorem valid_move_U_prime (s : CubeState) (hv : CellsValid s) :
    CellsValid (move_U_prime s) := by
  simp only [CellsValid, faceValid, move_U_prime, rotCCW, withRow0] at hv ⊢
  omega

/-- `move_D` keeps every cell below 6. -/
theorem valid_move_D (s : CubeState) (hv : CellsValid s) :
    CellsValid (move_D s) := by
  simp only [CellsValid, faceValid, move_D, rotCW, withRow2] at hv ⊢
  omega

/-- `move_D_prime` keeps every cell below 6. -/
theorem valid_move_D_prime (s : CubeState) (hv : CellsValid s) :
    CellsValid (move_D_prime s) := by
  simp only [CellsValid, faceValid, move_D_prime, rotCCW, withRow2] at hv ⊢
  omega

/-- `move_R` keeps every cell below 6. -/
theorem valid_move_R (s : CubeState) (hv : CellsValid s) :
    CellsValid (move_R s) := by
  simp only [CellsValid, faceValid, move_R, rotCW, withCol0, withCol2] at hv ⊢
  omega

/-- `move_R_prime` keeps every cell below 6. -/
theorem valid_move_R_prime (s : CubeState) (hv : CellsValid s) :
    CellsValid (move_R_prime s) := by
  simp only [CellsValid, faceValid, move_R_prime, rotCCW, withCol0, withCol2] at hv ⊢
  omega

/-- `move_L` keeps every cell below 6. -/
theorem valid_move_L (s : CubeState) (hv : CellsValid s) :
    CellsValid (move_L s) := by
  simp only [CellsValid, faceValid, move_L, rotCW, withCol0, withCol2] at hv ⊢
  omega

/-- `move_L_prime` keeps every cell below 6. -/
theorem valid_move_L_prime (s : CubeState) (hv : CellsValid s) :
    CellsValid (move_L_prime s) := by
  simp only [CellsValid, faceValid, move_L_prime, rotCCW, withCol0, withCol2] at hv ⊢
  omega

/-- `move_F` keeps every cell below 6. -/
theorem valid_move_F (s : CubeState) (hv : CellsValid s) :
    CellsValid (move_F s) := by
  simp only [CellsValid, faceValid, move_F, rotCW, withRow0, withRow2, withCol0, withCol2] at hv ⊢
  omega

/-- `move_F_prime` keeps every cell below 6. -/
theorem valid_move_F_prime (s : CubeState) (hv : CellsValid s) :
    CellsValid (move_F_prime s) := by
  simp only [CellsValid, faceValid, move_F_prime, rotCCW, withRow0, withRow2, withCol0, withCol2] at hv ⊢
  omega

/-- `move_B` keeps every cell below 6. -/
theorem valid_move_B (s : CubeState) (hv : CellsValid s) :
    CellsValid (move_B s) := by
  simp only [CellsValid, faceValid, move_B, rotCW, withRow0, withRow2, withCol0, withCol2] at hv ⊢
  omega

/-- `move_B_prime` keeps every cell below 6. -/
theorem valid_move_B_prime (s : CubeState) (hv : CellsValid s) :
    CellsValid (move_B_prime s) := by
  simp only [CellsValid, faceValid, move_B_prime, rotCCW, withRow0, withRow2, withCol0, withCol2] at hv ⊢
  omega

/-- A successful `apply_move` only permutes facelets: every color count is
preserved, whichever token was applied. -/
theorem count_apply (t : List Char) (s s2 : CubeState)
    (h : apply_move s t = .ok s2) (c : Nat) :
    countColor c s2 = countColor c s := by
  have hmem := mem_of_ok t s s2 h
  unfold apply_move at h
  rw [tokens18] at hmem
  simp only [List.mem_cons, List.not_mem_nil, or_false] at hmem
  rcases hmem with h1|h1|h1|h1|h1|h1|h1|h1|h1|h1|h1|h1|h1|h1|h1|h1|h1|h1 <;>
    rw [h1] at h <;> (have h2 := ok_inj h; subst h2) <;>
    first
    | exact count_move_U c s
    | exact count_move_U_prime c s
    | exact count_move_D c s
    | exact count_move_D_prime c s
    | exact count_move_R c s
    | exact count_move_R_prime c s
    | exact count_move_L c s
    | exact count_move_L_prime c s
    | exact count_move_F c s
    | exact count_move_F_prime c s
    | exact count_move_B c s
    | exact count_move_B_prime c s
    | exact (count_move_U c (move_U s)).trans (count_move_U c s)
    | exact (count_move_D c (move_D s)).trans (count_move_D c s)
    | exact (count_move_R c (move_R s)).trans (count_move_R c s)
    | exact (count_move_L c (move_L s)).trans (count_move_L c s)
    | exact (count_move_F c (move_F s)).trans (count_move_F c s)
    | exact (count_move_B c (move_B s)).trans (count_move_B c s)

/-- A successful `apply_move` keeps all cells below 6. -/
theorem valid_apply (t : List Char) (s s2 : CubeState)
    (h : apply_move s t = .ok s2) (hv : CellsValid s) : CellsValid s2 := by
  have hmem := mem_of_ok t s s2 h
  unfold apply_move at h
  rw [tokens18] at hmem
  simp only [List.mem_cons, List.not_mem_nil, or_false] at hmem
  rcases hmem with h1|h1|h1|h1|h1|h1|h1|h1|h1|h1|h1|h1|h1|h1|h1|h1|h1|h1 <;>
    rw [h1] at h <;> (have h2 := ok_inj h; subst h2) <;>
    first
    | exact valid_move_U s hv
    | exact valid_move_U_prime s hv
    | exact valid_move_D s hv
    | exact valid_move_D_prime s hv
    | exact valid_move_R s hv
    | exact valid_move_R_prime s hv
    | exact valid_move_L s hv
    | exact valid_move_L_prime s hv
    | exact valid_move_F s hv
    | exact valid_move_F_prime s hv
    | exact valid_move_B s hv
    | exact valid_move_B_prime s hv
    | exact valid_move_U _ (valid_move_U s hv)
    | exact valid_move_D _ (valid_move_D s hv)
    | exact valid_move_R _ (valid_move_R s hv)
    | exact valid_move_L _ (valid_move_L s hv)
    | exact valid_move_F _ (valid_move_F s hv)
    | exact valid_move_B _ (valid_move_B s hv)

/-- The token loop preserves every color count, also when it stops early at
an invalid token. -/
theorem goMoves_count (ts : List (List Char)) :
    ∀ s c, countColor c (goMoves s ts).1 = countColor c s := by
  induction ts with
  | nil => intro s c; rfl
  | cons t ts ih =>
    intro s c
    simp only [goMoves]
    cases happ : apply_move s t with
    | error e => rfl
    | ok s2 => exact (ih s2 c).trans (count_apply t s s2 happ c)

/-- C2: any sequence of legal tokens applied through the move engine to the
solved cube yields a state with exactly 9 facelets of each of the 6 colors;
no combination of tokens can break this. -/
theorem claim2_color_count :
    ∀ ts : List (List Char), (∀ t ∈ ts, t ∈ tokens18) →
      ∀ c : Nat, c < 6 → countColor c (goMoves solvedCube ts).1 = 9 := by
  intro ts _ c hc
  rw [goMoves_count]
  interval_cases c <;> rfl

/-- C2 witness: after the legal sequence R U from solved, color 0 still has
exactly 9 facelets. -/
theorem claim2_witness :
    countColor 0 (goMoves solvedCube [tokR, tokU]).1 = 9 :=
  claim2_color_count [tokR, tokU] (by decide) 0 (by decide)

/-- Every reachable state has all cells below 6. -/
theorem reachable_valid : ∀ s : CubeState, ReachableCube s → CellsValid s := by
  intro s hs
  induction hs with
  | solved => simp only [CellsValid, faceValid, solvedCube, fullFace]; omega
  | step hr ht happ ih => exact valid_apply _ _ _ happ ih

/-!
Serialization for the external optimal solver (claim C4), from
`solver_kociemba.py`, `cube_to_kociemba_string`.
-/

/-- The dict `{0: U, 1: D, 2: F, 3: B, 4: L, 5: R}`; a missing key is the
raised `KeyError`, embedded as `none`. -/
def color_to_face : Nat → Option Char
  | 0 => some 'U'
  | 1 => some 'D'
  | 2 => some 'F'
  | 3 => some 'B'
  | 4 => some 'L'
  | 5 => some 'R'
  | _ => none

/-- The nine cells of one face, left to right, top to bottom. -/
def faceCells (f : Face3) : List Nat :=
  [f.a00, f.a01, f.a02, f.a10, f.a11, f.a12, f.a20, f.a21, f.a22]

/-- The 54 cells in the Kociemba face order U, R, F, D, L, B. -/
def cellsKociembaOrder (s : CubeState) : List Nat :=
  faceCells s.U ++ faceCells s.R ++ faceCells s.F ++
  faceCells s.D ++ faceCells s.L ++ faceCells s.B

/-- The character-appending loop of `cube_to_kociemba_string`; a failed dict
lookup aborts the whole conversion. -/
def mapColorChars : List Nat → Option (List Char)
  | [] => some []
  | x :: xs =>
    match color_to_face x, mapColorChars xs with
    | some ch, some rest => some (ch :: rest)
    | _, _ => none

/-- `cube_to_kociemba_string`: the 54-character state string handed to the
external solver. -/
def cube_to_kociemba_string (s : CubeState) : Option (List Char) :=
  mapColorChars (cellsKociembaOrder s)

/-- Modelled from the spec: the home-face letter of a color is the face
letter at that color's index in the face order U, D, F, B, L, R. -/
def homeFaceLetter (c : Nat) : Char :=
  (['U', 'D', 'F', 'B', 'L', 'R']).getD c 'U'

/-- On valid colors the dict lookup returns exactly the home-face letter. -/
theorem mapColorChars_of_valid :
    ∀ l : List Nat, (∀ x ∈ l, x < 6) →
      mapColorChars l = some (l.map homeFaceLetter) := by
  intro l hl
  induction l with
  | nil => rfl
  | cons x xs ih =>
    have hx : x < 6 := hl x (List.mem_cons_self x xs)
    have hxs : ∀ y ∈ xs, y < 6 := fun y hy => hl y (List.mem_cons_of_mem x hy)
    have hcf : color_to_face x = some (homeFaceLetter x) := by
      interval_cases x <;> rfl
    simp [mapColorChars, hcf, ih hxs]

/-- All 54 listed cells of a valid state are below 6. -/
theorem cells_lt_of_valid (s : CubeState) (hv : CellsValid s) :
    ∀ x ∈ cellsKociembaOrder s, x < 6 := by
  intro x hx
  simp only [CellsValid, faceValid] at hv
  simp only [cellsKociembaOrder, faceCells, List.mem_append,
    List.mem_cons, List.not_mem_nil, or_false] at hx
  omega

/-- C4: for every reachable state, the string handed to the external solver
exists, is exactly 54 characters, lists the faces in the order U, R, F, D,
L, B row by row, and writes each cell as the home-face letter of the color
occupying it. -/
theorem claim4_kociemba_string :
    ∀ s : CubeState, ReachableCube s →
      ∃ ks, cube_to_kociemba_string s = some ks ∧ ks.length = 54 ∧
        ks = (cellsKociembaOrder s).map homeFaceLetter := by
  intro s hs
  have hv := reachable_valid s hs
  refine ⟨(cellsKociembaOrder s).map homeFaceLetter,
    mapColorChars_of_valid _ (cells_lt_of_valid s hv), ?_, rfl⟩
  simp [cellsKociembaOrder, faceCells]

/-- C4 witness: the serialization of the solved cube. -/
theorem claim4_witness :
    ∃ ks, cube_to_kociemba_string solvedCube = some ks ∧ ks.length = 54 ∧
      ks = (cellsKociembaOrder solvedCube).map homeFaceLetter :=
  claim4_kociemba_string solvedCube ReachableCube.solved

/-!
Error handling of the move engine (claim C5).
-/

/-- Every legal token takes an `ok` branch. -/
theorem applyStripped_mem (s : CubeState) (m : List Char)
    (hm : m ∈ tokens18) : ∃ s2, applyStripped s m = .ok s2 := by
  fin_cases hm <;> exact ⟨_, rfl⟩

/-- The token loop runs to the end without error on all-valid token lists. -/
theorem goMoves_all_valid :
    ∀ ts : List (List Char), ∀ s : CubeState,
      (∀ u ∈ ts, pyStrip u ∈ tokens18) → (goMoves s ts).2 = none := by
  intro ts
  induction ts with
  | nil => intro s _; rfl
  | cons u ts ih =>
    intro s hval
    obtain ⟨s2, hs2⟩ :=
      applyStripped_mem s (pyStrip u) (hval u (List.mem_cons_self u ts))
    simp only [goMoves]
    rw [show apply_move s u = .ok s2 from hs2]
    exact ih s2 (fun v hv => hval v (List.mem_cons_of_mem u hv))

/-- The token loop stops at the first invalid token, keeping exactly the
state produced by the valid prefix and reporting the stripped token. -/
theorem goMoves_first_invalid :
    ∀ pre : List (List Char), ∀ s : CubeState, ∀ t post,
      (∀ u ∈ pre, pyStrip u ∈ tokens18) → pyStrip t ∉ tokens18 →
      goMoves s (pre ++ t :: post) =
        ((goMoves s pre).1, some (invalidMoveMsg ++ pyStrip t)) := by
  intro pre
  induction pre with
  | nil =>
    intro s t post _ hbad
    have herr : apply_move s t = .error (invalidMoveMsg ++ pyStrip t) :=
      applyStripped_not_mem s (pyStrip t) hbad
    simp only [List.nil_append, goMoves]
    rw [herr]
  | cons u pre ih =>
    intro s t post hval hbad
    obtain ⟨s2, hs2⟩ :=
      applyStripped_mem s (pyStrip u) (hval u (List.mem_cons_self u pre))
    simp only [List.cons_append, goMoves]
    rw [show apply_move s u = .ok s2 from hs2]
    exact ih s2 t post (fun v hv => hval v (List.mem_cons_of_mem u hv)) hbad

/-- C5 (amended): a single token errors, naming the stripped token, exactly
when its stripped form is outside the 18-token grammar; a token sequence is
processed left to right, stopping at the first invalid token with the state
of the valid prefix retained; all-valid sequences never fail. -/
theorem claim5_error_handling :
    (∀ s : CubeState, ∀ m : List Char, pyStrip m ∉ tokens18 →
      apply_move s m = .error (invalidMoveMsg ++ pyStrip m)) ∧
    (∀ s : CubeState, ∀ m : List Char, pyStrip m ∈ tokens18 →
      ∃ s2, apply_move s m = .ok s2) ∧
    (∀ s : CubeState, ∀ pre t post, (∀ u ∈ pre, pyStrip u ∈ tokens18) →
      pyStrip t ∉ tokens18 →
      goMoves s (pre ++ t :: post) =
        ((goMoves s pre).1, some (invalidMoveMsg ++ pyStrip t))) ∧
    (∀ s : CubeState, ∀ ts, (∀ u ∈ ts, pyStrip u ∈ tokens18) →
      (goMoves s ts).2 = none) :=
  ⟨fun s m hm => applyStripped_not_mem s (pyStrip m) hm,
   fun s m hm => applyStripped_mem s (pyStrip m) hm,
   fun s pre t post hval hbad => goMoves_first_invalid pre s t post hval hbad,
   fun s ts hval => goMoves_all_valid ts s hval⟩

/-- C5 counterexample: the token with surrounding spaces is outside the
18-token grammar, yet `apply_move` succeeds on it (the source strips the
token before matching), so the claimed iff over raw tokens fails. -/
theorem claim5_counterexample :
    ([spaceC, 'U', spaceC] ∉ tokens18) ∧
    apply_move solvedCube [spaceC, 'U', spaceC] = .ok (move_U solvedCube) :=
  ⟨by decide, rfl⟩

/-- C5 witness: a concrete invalid token errors with its name, the U token
succeeds, and a concrete mixed sequence stops at the invalid token. -/
theorem claim5_witness :
    apply_move solvedCube ['X'] = .error (invalidMoveMsg ++ pyStrip ['X']) ∧
    goMoves solvedCube ([tokR] ++ ['X'] :: [tokU]) =
      ((goMoves solvedCube [tokR]).1, some (invalidMoveMsg ++ pyStrip ['X'])) :=
  ⟨claim5_error_handling.1 solvedCube ['X'] (by decide),
   claim5_error_handling.2.2.1 solvedCube [tokR] ['X'] [tokU] (by decide)
     (by decide)⟩

/-!
The layer-by-layer solver (`solver.py`, class `CubeSolver`).  The canned
algorithm strings of the pattern tables are embedded as token lists, each
phase loop as fuel recursion on its `max_attempts` bound, and the in-place
mutation of the working cube as explicit state passing.
-/

def rightHandAlg : List (List Char) :=
  [tokR, tokU, tokRp, tokUp, tokR, tokU, tokRp]

def rightInsertAlg : List (List Char) :=
  [tokU, tokR, tokUp, tokRp, tokUp, tokFp, tokU, tokF]

def leftInsertAlg : List (List Char) :=
  [tokUp, tokLp, tokU, tokL, tokU, tokF, tokUp, tokFp]

def lineAlg : List (List Char) := [tokF, tokR, tokU, tokRp, tokUp, tokFp]

def lShapeAlg : List (List Char) := [tokF, tokU, tokR, tokUp, tokRp, tokFp]

def dotAlg : List (List Char) :=
  [tokF, tokR, tokU, tokRp, tokUp, tokFp, tokU, tokF, tokR, tokU, tokRp,
   tokUp, tokFp]

def suneAlg : List (List Char) := [tokR, tokU, tokRp, tokU, tokR, tokU2, tokRp]

def antisuneAlg : List (List Char) :=
  [tokR, tokU2, tokRp, tokUp, tokR, tokUp, tokRp]

def piAlg : List (List Char) :=
  [tokR, tokU2, tokR2, tokUp, tokR2, tokUp, tokR2, tokU2, tokR]

def hAlg : List (List Char) :=
  [tokR, tokU, tokRp, tokU, tokR, tokUp, tokRp, tokU, tokR, tokU2, tokRp]

def adjacentSwapAlg : List (List Char) :=
  [tokR, tokU, tokRp, tokFp, tokR, tokU, tokRp, tokUp, tokRp, tokF, tokR2,
   tokUp, tokRp]

def clockwiseCycleAlg : List (List Char) :=
  [tokRp, tokF, tokRp, tokB2, tokR, tokFp, tokRp, tokB2, tokR2]

/-- `_is_white_cross_solved`: the four D-face edge cells are white. -/
def isWhiteCrossSolved (s : CubeState) : Bool :=
  (s.D.a01 == 0) && (s.D.a10 == 0) && (s.D.a12 == 0) && (s.D.a21 == 0)

/-- `_is_first_layer_solved`: the whole D face is white. -/
def isFirstLayerSolved (s : CubeState) : Bool := faceAll s.D 0

/-- `_is_middle_layer_solved`: no yellow cell at the two middle-row edge
positions of the four side faces. -/
def isMiddleLayerSolved (s : CubeState) : Bool :=
  !(s.F.a10 == 1 || s.F.a12 == 1 || s.R.a10 == 1 || s.R.a12 == 1 ||
    s.B.a10 == 1 || s.B.a12 == 1 || s.L.a10 == 1 || s.L.a12 == 1)

/-- `_is_yellow_cross_formed`: the four U-face edge cells are yellow. -/
def isYellowCrossFormed (s : CubeState) : Bool :=
  (s.U.a01 == 1) && (s.U.a10 == 1) && (s.U.a12 == 1) && (s.U.a21 == 1)

/-- `_is_top_face_yellow`: the whole U face is yellow. -/
def isTopFaceYellow (s : CubeState) : Bool := faceAll s.U 1

/-- `_are_corners_positioned`: both top corner cells of each side face show
that face's home color. -/
def areCornersPositioned (s : CubeState) : Bool :=
  (s.F.a00 == 2 && s.F.a02 == 2) && (s.R.a00 == 5 && s.R.a02 == 5) &&
  (s.B.a00 == 3 && s.B.a02 == 3) && (s.L.a00 == 4 && s.L.a02 == 4)

/-- `_are_edges_positioned`: the top edge cell of each side face shows that
face's home color. -/
def areEdgesPositioned (s : CubeState) : Bool :=
  (s.F.a01 == 2) && (s.R.a01 == 5) && (s.B.a01 == 3) && (s.L.a01 == 4)

/-- The white-cross inner conditional: the action chosen for the first
matching U-edge case, empty when no case matches. -/
def whiteCrossCase (s : CubeState) : List (List Char) :=
  if s.U.a10 = 0 then [tokL, tokF, tokLp]
  else if s.U.a01 = 0 then [tokF, tokF]
  else if s.U.a12 = 0 then [tokRp, tokF, tokR]
  else if s.U.a21 = 0 then [tokU]
  else []

/-- One inner iteration of `_solve_white_cross`: the case action followed by
the unconditional U turn. -/
def whiteCrossStep (s : CubeState) : List (List Char) × CubeState :=
  let ms := whiteCrossCase s ++ [tokU]
  (ms, applySeq s ms)

/-- The four inner iterations (over faces F, R, B, L) of one attempt. -/
def whiteCrossBody (s : CubeState) : List (List Char) × CubeState :=
  let r1 := whiteCrossStep s
  let r2 := whiteCrossStep r1.2
  let r3 := whiteCrossStep r2.2
  let r4 := whiteCrossStep r3.2
  (r1.1 ++ r2.1 ++ r3.1 ++ r4.1, r4.2)

/-- `_solve_white_corners` body: the right-hand algorithm for the first
white U-corner, otherwise a single U turn. -/
def whiteCornersAction (s : CubeState) : List (List Char) :=
  if s.U.a00 = 0 then rightHandAlg
  else if s.U.a02 = 0 then rightHandAlg
  else if s.U.a20 = 0 then rightHandAlg
  else if s.U.a22 = 0 then rightHandAlg
  else [tokU]

/-- `_solve_middle_layer` body: an insertion algorithm for the first
non-yellow U-edge (right insert only for the column-2 edge), otherwise a
single U turn. -/
def middleLayerAction (s : CubeState) : List (List Char) :=
  if s.U.a01 ≠ 1 then leftInsertAlg
  else if s.U.a10 ≠ 1 then leftInsertAlg
  else if s.U.a12 ≠ 1 then rightInsertAlg
  else if s.U.a21 ≠ 1 then leftInsertAlg
  else [tokU]

/-- `_get_yellow_cross_pattern`: classify the four U edges. -/
def yellowCrossPattern (s : CubeState) : String :=
  let cnt := (if s.U.a01 = 1 then 1 else 0) + (if s.U.a10 = 1 then 1 else 0) +
    (if s.U.a12 = 1 then 1 else 0) + (if s.U.a21 = 1 then 1 else 0)
  if cnt = 0 then "dot"
  else if cnt = 2 then
    if (s.U.a01 = 1 ∧ s.U.a21 = 1) ∨ (s.U.a10 = 1 ∧ s.U.a12 = 1) then "line"
    else "L"
  else "cross"

/-- `_solve_yellow_cross` body: the table algorithm for the recognized
pattern, the line algorithm as the default. -/
def yellowCrossAction (s : CubeState) : List (List Char) :=
  let p := yellowCrossPattern s
  if p = "dot" then dotAlg
  else if p = "line" then lineAlg
  else if p = "L" then lShapeAlg
  else lineAlg

/-- `_get_yellow_corner_pattern`: classify the four U corners. -/
def yellowCornersPattern (s : CubeState) : String :=
  let cnt := (if s.U.a00 = 1 then 1 else 0) + (if s.U.a02 = 1 then 1 else 0) +
    (if s.U.a20 = 1 then 1 else 0) + (if s.U.a22 = 1 then 1 else 0)
  if cnt = 1 then "sune"
  else if cnt = 2 then "antisune"
  else "pi"

/-- The keys of the `yellow_corner_patterns` table. -/
def yellowCornersKeys : List String := ["sune", "antisune", "pi", "h"]

/-- The `yellow_corner_patterns` table lookup. -/
def yellowCornersTable (p : String) : List (List Char) :=
  if p = "sune" then suneAlg
  else if p = "antisune" then antisuneAlg
  else if p = "pi" then piAlg
  else hAlg

/-- `_solve_yellow_corners` body: the table algorithm when the pattern is a
key, the sune algorithm as the default. -/
def yellowCornersAction (s : CubeState) : List (List Char) :=
  let p := yellowCornersPattern s
  if p ∈ yellowCornersKeys then yellowCornersTable p else suneAlg

/-- `_solve_pll` body: swap badly positioned corners, then cycle badly
positioned edges, otherwise a single U turn. -/
def pllAction (s : CubeState) : List (List Char) :=
  if !(areCornersPositioned s) then adjacentSwapAlg
  else if !(areEdgesPositioned s) then clockwiseCycleAlg
  else [tokU]

/-- The bounded detect/apply loop shared by all phases: stop when the fuel
(the source's `max_attempts`) runs out or the phase predicate holds, else
run the body and recurse. -/
def phaseLoop (done : CubeState → Bool)
    (body : CubeState → List (List Char) × CubeState) :
    Nat → CubeState → List (List Char) × CubeState
  | 0, s => ([], s)
  | n + 1, s =>
    if done s then ([], s)
    else
      let r1 := body s
      let r2 := phaseLoop done body n r1.2
      (r1.1 ++ r2.1, r2.2)

/-- A phase body that applies the chosen action to the cube. -/
def actBody (act : CubeState → List (List Char)) (s : CubeState) :
    List (List Char) × CubeState :=
  let ms := act s
  (ms, applySeq s ms)

def solveWhiteCross (s : CubeState) : List (List Char) × CubeState :=
  phaseLoop isWhiteCrossSolved whiteCrossBody 50 s

def solveWhiteCorners (s : CubeState) : List (List Char) × CubeState :=
  phaseLoop isFirstLayerSolved (actBody whiteCornersAction) 50 s

def solveMiddleLayer (s : CubeState) : List (List Char) × CubeState :=
  phaseLoop isMiddleLayerSolved (actBody middleLayerAction) 100 s

def solveYellowCross (s : CubeState) : List (List Char) × CubeState :=
  phaseLoop isYellowCrossFormed (actBody yellowCrossAction) 20 s

def solveYellowCorners (s : CubeState) : List (List Char) × CubeState :=
  phaseLoop isTopFaceYellow (actBody yellowCornersAction) 50 s

def solvePll (s : CubeState) : List (List Char) × CubeState :=
  phaseLoop is_solved (actBody pllAction) 50 s

/-- `CubeSolver.solve`: early exit on a solved input, otherwise the six
phases run in order on a deep copy of the input; the returned pair is the
emitted token list and the caller's cube as observable after the call. -/
def solver_solve (cube : CubeState) : List (List Char) × CubeState :=
  if is_solved cube then ([], cube)
  else
    let working := copyCube cube
    let r1 := solveWhiteCross working
    let r2 := solveWhiteCorners r1.2
    let r3 := solveMiddleLayer r2.2
    let r4 := solveYellowCross r3.2
    let r5 := solveYellowCorners r4.2
    let r6 := solvePll r5.2
    (r1.1 ++ r2.1 ++ r3.1 ++ r4.1 ++ r5.1 ++ r6.1, cube)

/-- C6 counterexample: after the legal scramble R2 the yellow-cross
classifier matches none of its three enumerated cases (one yellow edge
gives the tag cross), the phase is not complete, and the applied fallback
is the line algorithm, not a single U turn. -/
theorem claim6_counterexample :
    yellowCrossPattern (applySeq solvedCube [tokR2]) = "cross" ∧
    isYellowCrossFormed (applySeq solvedCube [tokR2]) = false ∧
    yellowCrossAction (applySeq solvedCube [tokR2]) = lineAlg ∧
    lineAlg ≠ [tokU] := by
  decide

/-- C6 (amended): the no-match action is a single U turn in the white-cross,
white-corner, middle-layer and permutation phases; in the yellow-cross phase
the no-match action is the line algorithm F R U R-prime U-prime F-prime; the
yellow-corner classifier always returns a table key (its coded default being
sune). -/
theorem claim6_fallbacks :
    (∀ s : CubeState, s.U.a10 ≠ 0 → s.U.a01 ≠ 0 → s.U.a12 ≠ 0 →
      s.U.a21 ≠ 0 → (whiteCrossStep s).1 = [tokU]) ∧
    (∀ s : CubeState, s.U.a00 ≠ 0 → s.U.a02 ≠ 0 → s.U.a20 ≠ 0 →
      s.U.a22 ≠ 0 → whiteCornersAction s = [tokU]) ∧
    (∀ s : CubeState, s.U.a01 = 1 → s.U.a10 = 1 → s.U.a12 = 1 →
      s.U.a21 = 1 → middleLayerAction s = [tokU]) ∧
    (∀ s : CubeState, yellowCrossPattern s ≠ "dot" →
      yellowCrossPattern s ≠ "line" → yellowCrossPattern s ≠ "L" →
      yellowCrossAction s = lineAlg) ∧
    lineAlg ≠ [tokU] ∧
    (∀ s : CubeState, yellowCornersPattern s ∈ yellowCornersKeys) ∧
    (∀ s : CubeState, areCornersPositioned s = true →
      areEdgesPositioned s = true → pllAction s = [tokU]) := by
  refine ⟨?_, ?_, ?_, ?_, by decide, ?_, ?_⟩
  · intro s h1 h2 h3 h4
    simp only [whiteCrossStep, whiteCrossCase, if_neg h1, if_neg h2,
      if_neg h3, if_neg h4, List.nil_append]
  · intro s h1 h2 h3 h4
    simp only [whiteCornersAction, if_neg h1, if_neg h2, if_neg h3, if_neg h4]
  · intro s h1 h2 h3 h4
    simp only [middleLayerAction, ne_eq, h1, h2, h3, h4, not_true_eq_false,
      if_false, if_neg]
  · intro s h1 h2 h3
    simp only [yellowCrossAction, if_neg h1, if_neg h2, if_neg h3]
  · intro s
    simp only [yellowCornersPattern]
    split_ifs <;> decide
  · intro s h1 h2
    simp only [pllAction, h1, h2, Bool.not_true, Bool.false_eq_true,
      if_false, if_neg]

/-- C6 witness: on the solved cube the permutation phase matches no swap
case and its action is the single U turn. -/
theorem claim6_witness : pllAction solvedCube = [tokU] :=
  claim6_fallbacks.2.2.2.2.2.2 solvedCube (by decide) (by decide)

/-- C10: the heuristic solver does not mutate its input: the copy is an
independent equal value and the caller's cube after `solve` returns is the
cube passed in. -/
theorem claim10_no_input_mutation :
    ∀ c : CubeState, copyCube c = c ∧ (solver_solve c).2 = c := by
  intro c
  refine ⟨rfl, ?_⟩
  unfold solver_solve
  split <;> rfl

/-!
The Kociemba path (`solver_kociemba.py`) and the `/solve` endpoint of
`app.py`.  The external `kociemba.solve` library call is not part of this
repository; it is passed in as an oracle returning `none` when the library
throws.
-/

/-- Python `str.lower()`. -/
def pyLower (l : List Char) : List Char := l.map Char.toLower

/-- The sentinel the source compares the library result against. -/
def kociembaSentinel : List Char := ("Error: Invalid cube state").data

/-- Message of the `except Exception` branch of `KociembaSolver.solve`. -/
def kociembaErrMsg : List Char := ("Kociemba solver error").data

/-- Message returned when the library reports an invalid cube state. -/
def invalidStateMsg : List Char := ("Invalid cube state - cannot solve").data

/-- `KociembaSolver.solve`: early exit on a solved cube; otherwise convert
the state (a failed dict lookup or a throwing library call lands in the
`except` branch), guard the sentinel, and return the solution string paired
with an optional error. -/
def kociembaSolve (ext : List Char → Option (List Char)) (cube : CubeState) :
    List Char × Option (List Char) :=
  if is_solved cube then ([], none)
  else
    match cube_to_kociemba_string cube with
    | none => ([], some kociembaErrMsg)
    | some ks =>
      match ext ks with
      | none => ([], some kociembaErrMsg)
      | some sol =>
        if sol = kociembaSentinel then ([], some invalidStateMsg)
        else (sol, none)

/-- `KociembaSolver.verify_solution`: an empty solution verifies iff the
cube is already solved; otherwise re-simulate on a copy, any raised error
meaning false. -/
def verify_solution (cube : CubeState) (sol : List Char) : Bool :=
  if sol.isEmpty then is_solved cube
  else
    match apply_moves (copyCube cube) sol with
    | (s2, none) => is_solved s2
    | (_, some _) => false

/-- Whitespace join of the solver's token list (`" ".join(solution_moves)`). -/
def joinSpace (ts : List (List Char)) : List Char := List.intercalate [spaceC] ts

/-- The endpoint's response fields relevant here. -/
structure SolveResp where
  solution : List Char
  verified : Bool
deriving DecidableEq, Repr

def noScrambleMsg : List Char := ("No scramble provided").data

def invalidScrambleErr : List Char := ("Invalid scramble: ").data

/-- The `/solve` handler of `app.py`: strip the scramble, reject an empty
one, build and scramble a fresh cube (a ValueError surfaces as an invalid
scramble error), then run the requested solver and verify its solution. -/
def solve_cube (ext : List Char → Option (List Char))
    (scrambleRaw algorithmRaw : List Char) : Except (List Char) SolveResp :=
  let scramble := pyStrip scrambleRaw
  let algorithm := pyLower algorithmRaw
  if scramble.isEmpty then .error noScrambleMsg
  else
    match apply_moves solvedCube scramble with
    | (_, some e) => .error (invalidScrambleErr ++ e)
    | (cube, none) =>
      if algorithm = ("kociemba").data then
        match kociembaSolve ext cube with
        | (_, some e) => .error e
        | (sol, none) => .ok ⟨sol, verify_solution cube sol⟩
      else
        let toks := (solver_solve cube).1
        let sol := joinSpace toks
        match apply_moves cube sol with
        | (_, some e) => .error (invalidScrambleErr ++ e)
        | (c2, none) => .ok ⟨sol, is_solved c2⟩

/-- An oracle for a library call that always throws. -/
def extNone : List Char → Option (List Char) := fun _ => none

/-- C8 counterexample: for the empty scramble string the endpoint answers
with the no-scramble error before any solver runs, not with an empty
solution marked verified. -/
theorem claim8_counterexample :
    solve_cube extNone [] (("kociemba").data) = .error noScrambleMsg := rfl

/-- C8 (amended): the endpoint rejects the empty scramble string with the
no-scramble error for every oracle and algorithm choice; an already-solved
input cube, however, gets the empty solution from both solvers, and the
empty solution verifies trivially. -/
theorem claim8_empty_scramble :
    (∀ ext : List Char → Option (List Char), ∀ alg : List Char,
      solve_cube ext [] alg = .error noScrambleMsg) ∧
    (∀ c : CubeState, is_solved c = true → solver_solve c = ([], c)) ∧
    (∀ ext : List Char → Option (List Char), ∀ c : CubeState,
      is_solved c = true →
        kociembaSolve ext c = ([], none) ∧ verify_solution c [] = true) := by
  refine ⟨fun ext alg => rfl, ?_, ?_⟩
  · intro c hc
    simp [solver_solve, hc]
  · intro ext c hc
    constructor
    · simp [kociembaSolve, hc]
    · simp [verify_solution, hc]

/-- C8 witness: the empty scramble errors concretely, and the solved cube
gets the empty solution with trivial verification from both solvers. -/
theorem claim8_witness :
    solve_cube extNone [] (("layer").data) = .error noScrambleMsg ∧
    solver_solve solvedCube = ([], solvedCube) ∧
    (kociembaSolve extNone solvedCube = ([], none) ∧
      verify_solution solvedCube [] = true) :=
  ⟨claim8_empty_scramble.1 extNone (("layer").data),
   claim8_empty_scramble.2.1 solvedCube (by decide),
   claim8_empty_scramble.2.2 extNone solvedCube (by decide)⟩
